import Mathlib

/-!
Verification of the open-addressing PSL hash table in `src/src/hashmap.rs`
(`FxHashMap`), shallowly embedded in Lean.

Modelling conventions:

* The hash provider (`FxBuildHasher` / any `H : BuildHasher + Clone`) is not
  part of the provided sources; per the spec it is an abstract capability
  producing an integer digest per key.  It is modelled as a plain function
  `K → Nat` stored in the `hasher_builder` field; `hash_key` applies it.
* `MapEntry` / `Entry` (module `map_entry`, not in the provided sources) are
  modelled from the spec: a slot is `VacantEntry` or `Occupied` of a record
  `{key, value, hash, psl}`; `MapEntry::default()` is the vacant slot.
* Machine integers (`usize`) are modelled as `Nat`.  The Rust expressions
  `hash % len` (which panics when `len = 0`), `.unwrap()` on a failed
  lookup, and `3 * len / 4` (integer division) are modelled explicitly; a
  panic is the `RunErr.crash` outcome.
* `insert_entry` contains a probe loop plus recursion through displaced
  entries.  The loop terminates structurally (its index only moves towards
  the end of the array and the loop stops there), and is modelled by
  structural recursion on the remaining suffix of the backing array.  The
  recursion through displaced entries has no evident termination argument
  and receives a fuel parameter; running out of fuel is the distinct
  outcome `RunErr.fuel`, so genuine divergence of the source is expressed
  as `= .error .fuel` for every fuel.
-/

namespace RHMap

/-- Modelled from the spec: the record stored in an occupied slot of the
backing array, `Entry { key, value, hash, psl }` from the `map_entry`
module (constructed in the source by `Entry::new(key, value, hash, 0)`). -/
structure Entry (K V : Type) where
  key : K
  value : V
  hash : Nat
  psl : Nat
deriving DecidableEq, Repr

/-- Modelled from the spec: a slot of the backing array, the tagged variant
`MapEntry::VacantEntry | MapEntry::Occupied(Entry)`; `MapEntry::default()`
is the vacant variant. -/
inductive MapEntry (K V : Type) where
  | vacantEntry : MapEntry K V
  | occupied : Entry K V → MapEntry K V
deriving DecidableEq, Repr

/-- Abnormal outcomes of a fueled run: `crash` models a Rust panic
(remainder by zero or an out-of-bounds unwrap), `fuel` models fuel
exhaustion (divergence of the source is `.error .fuel` for every fuel). -/
inductive RunErr where
  | fuel : RunErr
  | crash : RunErr
deriving DecidableEq, Repr

/-- Result of a fueled computation. -/
abbrev Res (α : Type) := Except RunErr α

/-- The hash table `FxHashMap { inner, hasher_builder, num_items }`; the
hash provider is modelled as a digest function. -/
structure FxHashMap (K V : Type) where
  inner : List (MapEntry K V)
  hasher_builder : K → Nat
  num_items : Nat

/-- `const INITIAL_SIZE: usize = 4`. -/
def INITIAL_SIZE : Nat := 4

variable {K V : Type}

/-- `FxHashMap::new()` — empty backing array, zero items (the concrete
default Fx hasher is abstract, hence the explicit provider argument). -/
def FxHashMap.new (hb : K → Nat) : FxHashMap K V :=
  ⟨[], hb, 0⟩

/-- `FxHashMap::with_capacity(n)` — `n` vacant slots up front. -/
def FxHashMap.with_capacity (n : Nat) (hb : K → Nat) : FxHashMap K V :=
  ⟨List.replicate n MapEntry.vacantEntry, hb, 0⟩

/-- `FxHashMap::with_hasher` — empty backing array, custom provider. -/
def FxHashMap.with_hasher (hb : K → Nat) : FxHashMap K V :=
  ⟨[], hb, 0⟩

/-- `FxHashMap::with_capacity_and_hasher`. -/
def FxHashMap.with_capacity_and_hasher (n : Nat) (hb : K → Nat) :
    FxHashMap K V :=
  ⟨List.replicate n MapEntry.vacantEntry, hb, 0⟩

/-- `FxHashMap::hash_key` — build a hasher, hash the key, return digest. -/
def FxHashMap.hash_key (m : FxHashMap K V) (key : K) : Nat :=
  m.hasher_builder key

/-- `FxHashMap::len`. -/
def FxHashMap.len (m : FxHashMap K V) : Nat :=
  m.num_items

/-- `FxHashMap::capacity`. -/
def FxHashMap.capacity (m : FxHashMap K V) : Nat :=
  m.inner.length

/-- Outcome of the probe loop inside `insert_entry`: the updated backing
array, plus how the walk ended — updating an equal key (no count bump),
placing into a vacancy, pushing past the end of the array, or swapping
with a richer occupant (whom the caller re-inserts recursively). -/
inductive LoopOut (K V : Type) where
  | updated : List (MapEntry K V) → LoopOut K V
  | placed : List (MapEntry K V) → LoopOut K V
  | pushed : List (MapEntry K V) → LoopOut K V
  | swapped : List (MapEntry K V) → Entry K V → LoopOut K V

/-- The probe loop of `insert_entry`, walking the suffix `inner.drop i`
with `i` the current absolute index: stop on an equal key (update in
place), a vacancy, a strictly poorer occupant (swap, returning the
displaced entry), or — after advancing past the last slot, before the
`psl` increment, exactly as in the source — push to the back.  In the
source the loop reads `inner[i]` only for `i < inner.len()` (the push
check precedes the next read), so walking the suffix is faithful. -/
def insertGo [DecidableEq K] (inner : List (MapEntry K V)) :
    List (MapEntry K V) → Entry K V → Nat → LoopOut K V
  | [], entry, _ => .pushed (inner ++ [.occupied entry])
  | .vacantEntry :: _, entry, i => .placed (inner.set i (.occupied entry))
  | .occupied oc :: rest, entry, i =>
    if oc.key = entry.key then
      .updated (inner.set i (.occupied entry))
    else if entry.psl > oc.psl then
      .swapped (inner.set i (.occupied entry)) oc
    else
      match rest with
      | [] => .pushed (inner ++ [.occupied entry])
      | _ :: _ => insertGo inner rest { entry with psl := entry.psl + 1 } (i + 1)

/-- The probe loop started at absolute index `i`. -/
def insertLoop [DecidableEq K] (inner : List (MapEntry K V))
    (entry : Entry K V) (i : Nat) : LoopOut K V :=
  insertGo inner (inner.drop i) entry i

/-- `FxHashMap::insert_entry`, with fuel for the recursion through
displaced entries.  `hash % len` with `len = 0` is a crash (Rust panics on
remainder by zero), as is an out-of-bounds initial read; the fall-through
`num_items += 1` (skipped only by the update return, and performed both by
the recursive call for a displaced entry and then again by its caller)
follows the source. -/
def FxHashMap.insert_entry [DecidableEq K] :
    Nat → FxHashMap K V → Entry K V → Res (FxHashMap K V)
  | 0, _, _ => .error .fuel
  | fuel + 1, m, entry =>
    if m.inner.length = 0 then .error .crash
    else
      match m.inner[entry.hash % m.inner.length]? with
      | none => .error .crash
      | some .vacantEntry =>
          .ok ⟨m.inner.set (entry.hash % m.inner.length) (.occupied entry),
               m.hasher_builder, m.num_items + 1⟩
      | some (.occupied _) =>
          match insertLoop m.inner entry (entry.hash % m.inner.length) with
          | .updated inner2 =>
              .ok ⟨inner2, m.hasher_builder, m.num_items⟩
          | .placed inner2 =>
              .ok ⟨inner2, m.hasher_builder, m.num_items + 1⟩
          | .pushed inner2 =>
              .ok ⟨inner2, m.hasher_builder, m.num_items + 1⟩
          | .swapped inner2 rich =>
              match FxHashMap.insert_entry fuel
                  ⟨inner2, m.hasher_builder, m.num_items⟩ rich with
              | .ok m2 =>
                  .ok ⟨m2.inner, m2.hasher_builder, m2.num_items + 1⟩
              | .error e => .error e

/-- The `occupied` projection used by the `filter_map` in `resize`. -/
def occupiedOf : MapEntry K V → Option (Entry K V)
  | .vacantEntry => none
  | .occupied e => some e

/-- The transfer loop of `resize`: `insert_entry` each drained occupied
entry, in index order, into the accumulating new table. -/
def FxHashMap.transfer [DecidableEq K] (fuel : Nat) :
    List (Entry K V) → FxHashMap K V → Res (FxHashMap K V)
  | [], acc => .ok acc
  | e :: rest, acc =>
      match acc.insert_entry fuel e with
      | .ok acc2 => FxHashMap.transfer fuel rest acc2
      | .error err => .error err

/-- `FxHashMap::resize` — target `INITIAL_SIZE` when the capacity is `0`,
else double it; drain the occupied entries (vacant slots discarded) and
re-place each into a fresh table with the cloned provider; the entries are
moved exactly as stored (digest and `psl` both carried over unchanged). -/
def FxHashMap.resize [DecidableEq K] (fuel : Nat) (m : FxHashMap K V) :
    Res (FxHashMap K V) :=
  FxHashMap.transfer fuel (m.inner.filterMap occupiedOf)
    (FxHashMap.with_capacity_and_hasher
      (if m.inner.length = 0 then INITIAL_SIZE else 2 * m.inner.length)
      m.hasher_builder)

/-- `FxHashMap::insert` — resize first when the table is empty or
`num_items > 3 * len / 4` (integer division), then place
`Entry::new(key, value, hash, 0)` via `insert_entry`. -/
def FxHashMap.insert [DecidableEq K] (fuel : Nat) (m : FxHashMap K V)
    (key : K) (value : V) : Res (FxHashMap K V) :=
  match (if m.inner.length = 0 ∨ m.num_items > 3 * m.inner.length / 4 then
           m.resize fuel
         else .ok m) with
  | .error e => .error e
  | .ok m1 => m1.insert_entry fuel ⟨key, value, m1.hash_key key, 0⟩

/-- The scan loop of `get` (`while d < len`), walking the suffix
`inner.drop d` with `d` the current absolute index: stop on a vacancy
(absent), an equal key (found), an occupant with `psl < d` (absent; note
`d` is the absolute index, initialised to the home slot), or the end of
the array (absent). -/
def getGo [DecidableEq K] : List (MapEntry K V) → K → Nat → Option V
  | [], _, _ => none
  | .vacantEntry :: _, _, _ => none
  | .occupied e :: rest, key, d =>
    if e.key = key then some e.value
    else if e.psl < d then none
    else getGo rest key (d + 1)

/-- `FxHashMap::get`; the outer `none` is the crash on an empty backing
array (`hash % 0` panics in Rust), `some r` the returned option. -/
def FxHashMap.get [DecidableEq K] (m : FxHashMap K V) (key : K) :
    Option (Option V) :=
  if m.inner.length = 0 then none
  else
    some (getGo (m.inner.drop (m.hash_key key % m.inner.length)) key
      (m.hash_key key % m.inner.length))

/-- Run a list of `insert` calls left to right, each with the given fuel. -/
def runInserts [DecidableEq K] (fuel : Nat) :
    FxHashMap K V → List (K × V) → Res (FxHashMap K V)
  | m, [] => .ok m
  | m, (k, v) :: rest =>
      match m.insert fuel k v with
      | .ok m2 => runInserts fuel m2 rest
      | .error e => .error e

/-- Number of occupied slots of the backing array (the true entry count,
as opposed to the `num_items` counter returned by `len`). -/
def FxHashMap.occCount (m : FxHashMap K V) : Nat :=
  (m.inner.filterMap occupiedOf).length

end RHMap

namespace RHMap

/-! ### Specification-level definitions used to state the claims -/

/-- First decisive answer of a scan: apply the per-index decision `dec` to
each index in the list; `some r` at an index decides the lookup with
result `r`, `none` continues; an exhausted index list is "absent". -/
def firstBy {V : Type} (dec : Nat → Option (Option V)) : List Nat → Option V
  | [] => none
  | d :: rest =>
      match dec d with
      | some r => r
      | none => firstBy dec rest

/-- Modelled from the spec, amended: the stopping decision of the lookup
scan at absolute index `d` — vacancy or a walk past the end stops with
"absent", an equal key stops with the value, a mismatching occupant with
`psl < d` (`d` the absolute index of the slot) stops with "absent",
anything else continues. -/
def decisionAt [DecidableEq K] (inner : List (MapEntry K V)) (key : K)
    (d : Nat) : Option (Option V) :=
  match inner[d]? with
  | none => some none
  | some .vacantEntry => some none
  | some (.occupied e) =>
    if e.key = key then some (some e.value)
    else if e.psl < d then some none
    else none

/-- Modelled from the spec, amended: `get` as the first decisive index of
a linear scan over the absolute indices from the home slot to the end of
the backing array, stopping early on a mismatching occupant whose stored
`psl` is strictly below the slot's absolute index. -/
def getSpecIdx [DecidableEq K] (m : FxHashMap K V) (key : K) :
    Option (Option V) :=
  if m.inner.length = 0 then none
  else
    some (firstBy (decisionAt m.inner key)
      (List.range' (m.hash_key key % m.inner.length)
        (m.inner.length - m.hash_key key % m.inner.length)))

/-- Modelled from the spec, as claimed (C4): the stopping decision at
absolute index `d` when scanning from `home`, stopping with "absent" on a
mismatching occupant whose stored `psl` is strictly below the DISTANCE
`d - home` of the slot from the home slot. -/
def decisionAtDist [DecidableEq K] (inner : List (MapEntry K V)) (key : K)
    (home d : Nat) : Option (Option V) :=
  match inner[d]? with
  | none => some none
  | some .vacantEntry => some none
  | some (.occupied e) =>
    if e.key = key then some (some e.value)
    else if e.psl < d - home then some none
    else none

/-- Modelled from the spec, as claimed (C4): `get` with the early stop
keyed on the distance from the home slot rather than the absolute index. -/
def getSpecDist [DecidableEq K] (m : FxHashMap K V) (key : K) :
    Option (Option V) :=
  if m.inner.length = 0 then none
  else
    some (firstBy
      (decisionAtDist m.inner key (m.hash_key key % m.inner.length))
      (List.range' (m.hash_key key % m.inner.length)
        (m.inner.length - m.hash_key key % m.inner.length)))

/-- Drain of the occupied entries of a backing array in index order,
written as plain structural recursion (spec-level formulation of the
`drain(0..).filter_map` pipeline of `resize`). -/
def drainEntries : List (MapEntry K V) → List (Entry K V)
  | [] => []
  | .vacantEntry :: rest => drainEntries rest
  | .occupied e :: rest => e :: drainEntries rest

/-- Modelled from the spec, amended: `resize` described as — allocate a
fresh table of capacity `INITIAL_SIZE` (if currently 0) or twice the
current capacity, sharing the cloned provider; drain the occupied entries
in index order, discarding vacant slots; re-run placement for each with
its stored digest (not recomputed) and its stored `psl` carried over
unchanged (NOT reset to 0). -/
def resizeSpecKept [DecidableEq K] (fuel : Nat) (m : FxHashMap K V) :
    Res (FxHashMap K V) :=
  FxHashMap.transfer fuel (drainEntries m.inner)
    (FxHashMap.with_capacity_and_hasher
      (if m.inner.length = 0 then INITIAL_SIZE else 2 * m.inner.length)
      m.hasher_builder)

/-- Modelled from the spec, as claimed (C6): `resize` with each
transferred entry's `psl` reset to 0 before re-placement. -/
def resizeSpecReset [DecidableEq K] (fuel : Nat) (m : FxHashMap K V) :
    Res (FxHashMap K V) :=
  FxHashMap.transfer fuel
    ((m.inner.filterMap occupiedOf).map (fun e => { e with psl := 0 }))
    (FxHashMap.with_capacity_and_hasher
      (if m.inner.length = 0 then INITIAL_SIZE else 2 * m.inner.length)
      m.hasher_builder)

/-- The capacity form asserted by C8: zero or `2 ^ k * INITIAL_SIZE`. -/
def capacityForm (n : Nat) : Prop :=
  n = 0 ∨ ∃ k, n = 2 ^ k * INITIAL_SIZE

/-! ### Concrete instances (hash functions are legitimate custom
providers, supplied through the `with_hasher`-style constructors) -/

/-- A constant hash provider: every key digests to 1. -/
def hConst1 : Nat → Nat := fun _ => 1

/-- Shorthand for an occupied slot whose value equals its key. -/
def oE (k h p : Nat) : MapEntry Nat Nat :=
  .occupied ⟨k, k, h, p⟩

/-- The table reached from `new` by inserting keys 0, 1, 2 (values 10,
11, 12) under the constant-1 provider: all three share home slot 1 and
are stored, in probe order, at indices 1, 2, 3 with psl 0, 1, 2. -/
def tC1 : FxHashMap Nat Nat :=
  ⟨[.vacantEntry, .occupied ⟨0, 10, 1, 0⟩, .occupied ⟨1, 11, 1, 1⟩,
    .occupied ⟨2, 12, 1, 2⟩], hConst1, 3⟩

/-- Provider for the C3 trace: key 0 digests to 1, keys 1 and 2 to 0. -/
def hC3 : Nat → Nat := fun k => if k = 0 then 1 else 0

/-- Provider for the C6 trace: key 0 digests to 1, key 1 to 9 (same home
slot 1 modulo capacity 4, distinct home slots modulo capacity 8). -/
def hC6 : Nat → Nat := fun k => if k = 0 then 1 else 9

/-- The table reached from `new` by inserting keys 0 then 1 (values =
keys) under `hC6`: key 0 at its home slot 1 with psl 0, key 1 displaced
to slot 2 with psl 1. -/
def t6 : FxHashMap Nat Nat :=
  ⟨[.vacantEntry, .occupied ⟨0, 0, 1, 0⟩, .occupied ⟨1, 1, 9, 1⟩,
    .vacantEntry], hC6, 2⟩

/-- Provider for the diverging run: digests of keys 0..12. -/
def hSeed : Nat → Nat := fun k =>
  [5, 3, 2, 4, 4, 2, 1, 2, 1, 2, 2, 4, 2].getD k 0

/-- The eight inserts of the diverging run (values equal keys). -/
def preInserts : List (Nat × Nat) :=
  [(12, 12), (6, 6), (1, 1), (12, 12), (0, 0), (9, 9), (10, 10), (11, 11)]

/-- The table reached from `new hSeed` by `preInserts` (capacity 20 after
doublings and escape-hatch pushes, `num_items` already inflated to 11 by
double counting while only 7 slots are occupied). -/
def tPre : FxHashMap Nat Nat :=
  ⟨[.vacantEntry, oE 6 1 0, oE 12 2 3, oE 1 3 3, oE 9 2 4, oE 10 2 5,
    oE 0 5 3, oE 11 4 3,
    .vacantEntry, .vacantEntry, .vacantEntry, .vacantEntry, .vacantEntry,
    .vacantEntry, .vacantEntry, .vacantEntry, .vacantEntry, .vacantEntry,
    .vacantEntry, .vacantEntry], hSeed, 11⟩

/-- Backing array template of the pumping cycle: slots 2–6 vary, slot 1
holds key 6 (home 1, never visited), slot 7 holds key 0 (home 5, psl 5,
never read during the cycle), everything from slot 8 on is vacant. -/
def pInner (s2 s3 s4 s5 s6 : MapEntry Nat Nat) : List (MapEntry Nat Nat) :=
  [.vacantEntry, oE 6 1 0, s2, s3, s4, s5, s6, oE 0 5 5,
   .vacantEntry, .vacantEntry, .vacantEntry, .vacantEntry, .vacantEntry,
   .vacantEntry, .vacantEntry, .vacantEntry, .vacantEntry, .vacantEntry,
   .vacantEntry, .vacantEntry]

end RHMap

namespace RHMap

/-- Identity hash provider. -/
def hId : Nat → Nat := fun k => k

/-- The table after the first two inserts of the C3 trace. -/
def t3a : FxHashMap Nat Nat :=
  ⟨[.occupied ⟨1, 1, 0, 0⟩, .occupied ⟨0, 0, 1, 0⟩, .vacantEntry,
    .vacantEntry], hC3, 2⟩

/-- The table after all three inserts of the C3 trace: inserting key 2
displaces key 0 (the swap at slot 1), whose recursive re-insertion bumps
`num_items` a second time, leaving `num_items = 4` for 3 entries. -/
def t3 : FxHashMap Nat Nat :=
  ⟨[.occupied ⟨1, 1, 0, 0⟩, .occupied ⟨2, 2, 0, 1⟩, .occupied ⟨0, 0, 1, 1⟩,
    .vacantEntry], hC3, 4⟩

/-- The table after inserting keys 0–3 (values = keys) under the identity
provider: four items in a capacity-4 table, load factor 1. -/
def t5 : FxHashMap Nat Nat :=
  ⟨[.occupied ⟨0, 0, 0, 0⟩, .occupied ⟨1, 1, 1, 0⟩, .occupied ⟨2, 2, 2, 0⟩,
    .occupied ⟨3, 3, 3, 0⟩], hId, 4⟩

/-- `tC1` after the updating re-insert of key 2 with value 99. -/
def tC7 : FxHashMap Nat Nat :=
  ⟨[.vacantEntry, .occupied ⟨0, 10, 1, 0⟩, .occupied ⟨1, 11, 1, 1⟩,
    .occupied ⟨2, 99, 1, 2⟩], hConst1, 3⟩

/-- A below-threshold table for the C5 witness. -/
def m5w : FxHashMap Nat Nat := FxHashMap.with_capacity 4 hConst1

/-- The result of inserting (0, 0) into `m5w`. -/
def r5w : FxHashMap Nat Nat :=
  ⟨[.vacantEntry, .occupied ⟨0, 0, 1, 0⟩, .vacantEntry, .vacantEntry],
   hConst1, 1⟩

/-- The result of inserting (0, 7) into `new hConst1` (C8 witness). -/
def r8w : FxHashMap Nat Nat :=
  ⟨[.vacantEntry, .occupied ⟨0, 7, 1, 0⟩, .vacantEntry, .vacantEntry],
   hConst1, 1⟩

/-- Length of the backing array across the probe-loop outcomes: preserved
by update, placement and swap; grown by one by the escape-hatch push. -/
def loopLenOk (n : Nat) : LoopOut K V → Prop
  | .updated l => l.length = n
  | .placed l => l.length = n
  | .pushed l => l.length = n + 1
  | .swapped l _ => l.length = n

end RHMap

namespace RHMap

/-! ### Claim theorems (concrete evaluations) -/

/-- C1: the round-trip property fails on the code.  Under the legitimate
custom provider `hConst1` (constructor `with_hasher`-style), inserting the
distinct keys 0, 1, 2 with values 10, 11, 12 succeeds and yields `tC1`,
yet `get 2` returns "not found" (`some none`) instead of the inserted
value 12: the early-termination test `entry.psl < d` uses the absolute
index `d` (here `d = 1`, occupant psl 0 at slot 1) instead of the
distance walked, so the scan gives up before reaching key 2 at slot 3. -/
theorem C1_get_after_inserts :
    runInserts 100 (FxHashMap.new hConst1) [(0, 10), (1, 11), (2, 12)]
      = .ok tC1 ∧
    tC1.get 2 = some none ∧
    tC1.get 2 ≠ some (some 12) := by
  refine ⟨rfl, rfl, by decide⟩

/-- C2: `get` on a key never inserted does NOT return "not found" on an
empty table — it crashes.  On a freshly constructed table of capacity 0
(via `new` or `with_hasher`) the source evaluates `hash % self.inner.len()`
with `len() = 0`, a remainder-by-zero panic, modelled by the outer `none`.
(On a non-empty table with only other keys present, `get` does return
`none`, as the second conjunct shows for `tC1` and the absent key 7.) -/
theorem C2_get_empty_crashes :
    (FxHashMap.new hConst1 : FxHashMap Nat Nat).get 0 = none ∧
    (FxHashMap.with_hasher hConst1 : FxHashMap Nat Nat).get 5 = none ∧
    tC1.get 7 = some none := by
  refine ⟨rfl, rfl, rfl⟩

/-- C3: inserting a fresh key does NOT always increase `len` by exactly
one.  Under `hC3` the third insert (key 2, not present) displaces the
richer occupant key 0; the recursive re-insertion of key 0 increments
`num_items` and the interrupted outer call increments it again, so `len`
jumps from 2 to 4 while only 3 slots are occupied. -/
theorem C3_len_double_count :
    runInserts 100 (FxHashMap.new hC3) [(0, 0), (1, 1)] = .ok t3a ∧
    t3a.len = 2 ∧
    t3a.insert 100 2 2 = .ok t3 ∧
    t3.len = 4 ∧
    t3.occCount = 3 := by
  refine ⟨rfl, rfl, rfl, rfl, rfl⟩

/-- C7: updating an existing key leaves `len` unchanged and overwrites in
place, but the claimed `get(K) = Some(V2)` fails: after re-inserting key 2
with value 99 into `tC1`, the stored value is 99 yet `get 2` returns "not
found" because of the absolute-index early stop (same defect as C1). -/
theorem C7_update_then_get_misses :
    runInserts 100 (FxHashMap.new hConst1) [(0, 10), (1, 11), (2, 12)]
      = .ok tC1 ∧
    tC1.insert 100 2 99 = .ok tC7 ∧
    tC7.len = tC1.len ∧
    tC7.get 2 = some none ∧
    tC7.get 2 ≠ some (some 99) := by
  refine ⟨rfl, rfl, rfl, rfl, by decide⟩

/-- C5, counterexample: after four inserts of distinct keys under the
identity provider the table holds `num_items = 4` in capacity 4, so
`num_items ≤ 0.75 * capacity` (i.e. `4 * num_items ≤ 3 * capacity`) is
violated after an insert returns: the resize check `num_items > 3*len/4`
runs before the increment, so the load factor reaches 1 before the next
insert finally resizes. -/
theorem C5_load_factor_cex :
    runInserts 100 (FxHashMap.new hId) [(0, 0), (1, 1), (2, 2), (3, 3)]
      = .ok t5 ∧
    ¬ 4 * t5.len ≤ 3 * t5.capacity := by
  refine ⟨rfl, by decide⟩

/-- C8, counterexample: `with_capacity 10` is a reachable state (any
constructor, zero inserts) whose capacity 10 is neither 0 nor of the form
`2 ^ k * INITIAL_SIZE`. -/
theorem C8_capacity_form_cex :
    (FxHashMap.with_capacity 10 hConst1 : FxHashMap Nat Nat).capacity = 10 ∧
    ¬ capacityForm
        (FxHashMap.with_capacity 10 hConst1 : FxHashMap Nat Nat).capacity := by
  constructor
  · rfl
  · rintro (h | ⟨k, hk⟩)
    · simp [FxHashMap.capacity, FxHashMap.with_capacity] at h
    · have h1 : 1 ≤ 2 ^ k := Nat.one_le_two_pow
      have h10 : (FxHashMap.with_capacity 10 hConst1 :
          FxHashMap Nat Nat).capacity = 10 := rfl
      rw [h10] at hk
      have : INITIAL_SIZE = 4 := rfl
      rw [this] at hk
      omega

end RHMap

namespace RHMap

/-! ### Structural lemmas about the probe loop and `insert_entry` -/

theorem insertGo_len [DecidableEq K] (inner : List (MapEntry K V)) :
    ∀ (suffix : List (MapEntry K V)) (e : Entry K V) (i : Nat),
      loopLenOk inner.length (insertGo inner suffix e i)
  | [], e, i => by simp [insertGo, loopLenOk]
  | .vacantEntry :: rest, e, i => by simp [insertGo, loopLenOk]
  | .occupied oc :: rest, e, i => by
      simp only [insertGo]
      split
      · simp [loopLenOk]
      · split
        · simp [loopLenOk]
        · match rest with
          | [] => simp [loopLenOk]
          | s2 :: rest2 => exact insertGo_len inner (s2 :: rest2) _ _

theorem insert_entry_capacity [DecidableEq K] :
    ∀ (fuel : Nat) (m : FxHashMap K V) (e : Entry K V) (m2 : FxHashMap K V),
      FxHashMap.insert_entry fuel m e = .ok m2 →
      m2.inner.length = m.inner.length ∨
        m2.inner.length = m.inner.length + 1
  | 0, m, e, m2 => by
      intro h
      exact absurd h (by simp [FxHashMap.insert_entry])
  | fuel + 1, m, e, m2 => by
      intro h
      simp only [FxHashMap.insert_entry] at h
      split at h
      · exact absurd h (by simp)
      · split at h
        · exact absurd h (by simp)
        · rw [Except.ok.injEq] at h
          left
          rw [← h]
          simp
        · rename_i heq
          have hl : loopLenOk m.inner.length
              (insertLoop m.inner e (e.hash % m.inner.length)) :=
            insertGo_len m.inner _ e _
          split at h
          all_goals rename_i hout
          · rw [hout] at hl
            rw [Except.ok.injEq] at h
            left
            rw [← h]
            exact hl
          · rw [hout] at hl
            rw [Except.ok.injEq] at h
            left
            rw [← h]
            exact hl
          · rw [hout] at hl
            rw [Except.ok.injEq] at h
            right
            rw [← h]
            exact hl
          · rw [hout] at hl
            split at h
            · rename_i m3 hrec
              rw [Except.ok.injEq] at h
              have ih := insert_entry_capacity fuel _ _ _ hrec
              rw [← h]
              simp only at ih ⊢
              rcases ih with ih | ih
              · left
                rw [ih]
                exact hl
              · right
                rw [ih, hl]
            · exact absurd h (by simp)

theorem insert_entry_no_crash [DecidableEq K] :
    ∀ (fuel : Nat) (m : FxHashMap K V) (e : Entry K V),
      m.inner.length ≠ 0 →
      FxHashMap.insert_entry fuel m e ≠ .error .crash
  | 0, m, e => by
      intro _ h
      simp [FxHashMap.insert_entry] at h
  | fuel + 1, m, e => by
      intro hne h
      simp only [FxHashMap.insert_entry] at h
      rw [if_neg hne] at h
      have hlt : e.hash % m.inner.length < m.inner.length :=
        Nat.mod_lt _ (Nat.pos_of_ne_zero hne)
      rw [List.getElem?_eq_getElem hlt] at h
      rcases hs : m.inner[e.hash % m.inner.length] with _ | oc
      · rw [hs] at h
        simp at h
      · rw [hs] at h
        simp only at h
        split at h
        · simp at h
        · simp at h
        · simp at h
        · rename_i inner2 rich hout
          have hl : loopLenOk m.inner.length
              (insertLoop m.inner e (e.hash % m.inner.length)) :=
            insertGo_len m.inner _ e _
          rw [hout] at hl
          split at h
          · simp at h
          · rename_i e2 hrec
            rw [Except.error.injEq] at h
            rw [h] at hrec
            exact insert_entry_no_crash fuel _ _ (by
              simp only
              rw [hl]
              exact hne) hrec

theorem transfer_capacity [DecidableEq K] (fuel : Nat) :
    ∀ (l : List (Entry K V)) (acc r : FxHashMap K V),
      FxHashMap.transfer fuel l acc = .ok r →
      acc.inner.length ≤ r.inner.length
  | [], acc, r => by
      intro h
      simp only [FxHashMap.transfer, Except.ok.injEq] at h
      rw [h]
  | e :: rest, acc, r => by
      intro h
      simp only [FxHashMap.transfer] at h
      split at h
      · rename_i acc2 hins
        have h1 := insert_entry_capacity fuel acc e acc2 hins
        have h2 := transfer_capacity fuel rest acc2 r h
        omega
      · exact absurd h (by simp)

theorem transfer_no_crash [DecidableEq K] (fuel : Nat) :
    ∀ (l : List (Entry K V)) (acc : FxHashMap K V),
      acc.inner.length ≠ 0 →
      FxHashMap.transfer fuel l acc ≠ .error .crash
  | [], acc => by
      intro _ h
      simp [FxHashMap.transfer] at h
  | e :: rest, acc => by
      intro hne h
      simp only [FxHashMap.transfer] at h
      split at h
      · rename_i acc2 hins
        have h1 := insert_entry_capacity fuel acc e acc2 hins
        exact transfer_no_crash fuel rest acc2 (by omega) h
      · rename_i e2 hins
        rw [Except.error.injEq] at h
        rw [h] at hins
        exact insert_entry_no_crash fuel acc e hne hins

theorem resize_capacity [DecidableEq K] (fuel : Nat) (m r : FxHashMap K V)
    (h : m.resize fuel = .ok r) :
    (if m.inner.length = 0 then INITIAL_SIZE else 2 * m.inner.length) ≤
      r.inner.length := by
  have := transfer_capacity fuel _ _ _ h
  simpa [FxHashMap.with_capacity_and_hasher] using this

theorem resize_no_crash [DecidableEq K] (fuel : Nat) (m : FxHashMap K V) :
    m.resize fuel ≠ .error .crash := by
  apply transfer_no_crash
  simp only [FxHashMap.with_capacity_and_hasher, List.length_replicate]
  split
  · simp [INITIAL_SIZE]
  · rename_i hne
    omega

end RHMap

namespace RHMap

/-- C9: `insert` never panics.  Regardless of fuel, table state (any
capacity, including 0), key and value, the model never produces the crash
outcome: `insert` resizes whenever the backing array is empty, so
`insert_entry` only ever runs on a non-empty array, its `hash % len` is
never a remainder by zero, and every index it reads or writes (probe walk,
displacement recursion, end-of-array push) stays in bounds. -/
theorem C9_insert_never_crashes [DecidableEq K] :
    ∀ (fuel : Nat) (m : FxHashMap K V) (key : K) (value : V),
      m.insert fuel key value ≠ .error .crash := by
  intro fuel m key value h
  simp only [FxHashMap.insert] at h
  split at h
  · rename_i e heq
    rw [Except.error.injEq] at h
    rw [h] at heq
    split at heq
    · exact resize_no_crash fuel m heq
    · exact absurd heq (by simp)
  · rename_i m1 heq
    have hm1 : m1.inner.length ≠ 0 := by
      split at heq
      · rename_i hcond
        have := resize_capacity fuel m m1 heq
        split at this
        · simp only [INITIAL_SIZE] at this
          omega
        · rename_i hne
          omega
      · rename_i hcond
        rw [Except.ok.injEq] at heq
        rw [← heq]
        intro h0
        exact hcond (Or.inl h0)
    exact insert_entry_no_crash fuel m1 _ hm1 h

/-- C8, amended: the capacity never decreases across operations — an
insert can only keep it, push one slot, or grow it through the doubling
resize — but reachable capacities are NOT confined to 0 or
`2 ^ k * INITIAL_SIZE` (see the counterexample: `with_capacity` admits
any initial capacity, and the escape-hatch push adds single slots). -/
theorem C8_capacity_monotone [DecidableEq K] :
    ∀ (fuel : Nat) (m : FxHashMap K V) (key : K) (value : V)
      (m2 : FxHashMap K V),
      m.insert fuel key value = .ok m2 → m.capacity ≤ m2.capacity := by
  intro fuel m key value m2 h
  simp only [FxHashMap.insert] at h
  split at h
  · exact absurd h (by simp)
  · rename_i m1 heq
    have h2 := insert_entry_capacity fuel m1 _ m2 h
    have h1 : m.inner.length ≤ m1.inner.length := by
      split at heq
      · have := resize_capacity fuel m m1 heq
        split at this
        · rename_i h0
          omega
        · omega
      · rw [Except.ok.injEq] at heq
        rw [heq]
    simp only [FxHashMap.capacity]
    omega

/-- C8, witness for the amended theorem: inserting (0, 7) into the empty
table `new hConst1` succeeds with result `r8w`, and the capacity did not
decrease (it grew from 0 to 4). -/
theorem C8_capacity_monotone_witness :
    (FxHashMap.new hConst1 : FxHashMap Nat Nat).insert 10 0 7 = .ok r8w ∧
    (FxHashMap.new hConst1 : FxHashMap Nat Nat).capacity ≤ r8w.capacity :=
  ⟨rfl, C8_capacity_monotone 10 (FxHashMap.new hConst1) 0 7 r8w rfl⟩

/-- C5, amended: `insert` resizes before placing only when the table is
empty or `num_items` already exceeds `3 * capacity / 4` (integer
division); when the capacity is non-zero and `num_items ≤ 3*capacity/4`
no resize happens — the capacity stays, or grows by exactly one through
the escape-hatch push — and consequently `num_items` can reach
`3*capacity/4 + 1 > 0.75 * capacity` after the insert returns (see the
counterexample), the resize happening only at the start of the NEXT
insert. -/
theorem C5_no_resize_below_threshold [DecidableEq K] :
    ∀ (fuel : Nat) (m : FxHashMap K V) (key : K) (value : V)
      (m2 : FxHashMap K V),
      m.capacity ≠ 0 → m.num_items ≤ 3 * m.capacity / 4 →
      m.insert fuel key value = .ok m2 →
      m2.capacity = m.capacity ∨ m2.capacity = m.capacity + 1 := by
  intro fuel m key value m2 hcap hload h
  simp only [FxHashMap.capacity] at hcap hload ⊢
  have hc : ¬ (m.inner.length = 0 ∨
      m.num_items > 3 * m.inner.length / 4) := by
    push_neg
    exact ⟨hcap, by omega⟩
  rw [FxHashMap.insert, if_neg hc] at h
  exact insert_entry_capacity fuel m _ m2 h

/-- C5, witness for the amended theorem: the capacity-4 table `m5w` holds
0 items (below threshold); inserting (0, 0) with fuel 10 succeeds with
result `r5w` whose capacity is unchanged. -/
theorem C5_no_resize_below_threshold_witness :
    m5w.capacity ≠ 0 ∧ m5w.num_items ≤ 3 * m5w.capacity / 4 ∧
    m5w.insert 10 0 0 = .ok r5w ∧
    (r5w.capacity = m5w.capacity ∨ r5w.capacity = m5w.capacity + 1) :=
  ⟨by decide, by decide, rfl,
   C5_no_resize_below_threshold 10 m5w 0 0 r5w (by decide) (by decide) rfl⟩

end RHMap

namespace RHMap

theorem getGo_eq_firstBy [DecidableEq K] (inner : List (MapEntry K V))
    (key : K) (d : Nat) :
    getGo (inner.drop d) key d =
      firstBy (decisionAt inner key) (List.range' d (inner.length - d)) := by
  by_cases hd : d < inner.length
  · rw [List.drop_eq_getElem_cons hd]
    have hrange : inner.length - d = (inner.length - (d + 1)) + 1 := by
      omega
    rw [hrange, List.range'_succ]
    rcases hs : inner[d] with _ | e
    · simp [getGo, firstBy, decisionAt, List.getElem?_eq_getElem hd, hs]
    · simp only [getGo, firstBy, decisionAt,
        List.getElem?_eq_getElem hd, hs]
      split
      · rfl
      · split
        · rfl
        · exact getGo_eq_firstBy inner key (d + 1)
  · rw [List.drop_eq_nil_of_le (by omega)]
    have h0 : inner.length - d = 0 := by omega
    rw [h0]
    rfl
termination_by inner.length - d

/-- C4, amended: the lookup scan stops early with "not found" exactly at
the first slot holding a mismatching occupant whose stored `psl` is
strictly less than the slot's ABSOLUTE INDEX in the backing array (the
loop variable `d` is initialised to the home slot index, not to 0), not
its distance from the home slot: `get` coincides everywhere with the
first-decisive-index scan `getSpecIdx` whose stopping rule is
`occupant.psl < absolute index`. -/
theorem C4_get_scans_by_index [DecidableEq K] :
    ∀ (m : FxHashMap K V) (key : K), m.get key = getSpecIdx m key := by
  intro m key
  rw [FxHashMap.get, getSpecIdx]
  split
  · rfl
  · rw [getGo_eq_firstBy]

/-- C4, counterexample: on the reachable table `tC1` (keys 0, 1, 2 with
one shared home slot 1), the scan for key 2 gives up at slot 1 because
the occupant's psl 0 is smaller than the absolute index 1 — although its
distance from the home slot is 0, so the claimed distance-based rule
would continue (and indeed `getSpecDist` finds the key): the claim's
"exactly when `occupant.psl < d` where `d` is the distance" is false of
the code. -/
theorem C4_distance_rule_cex :
    tC1.get 2 = some none ∧
    getSpecDist tC1 2 = some (some 12) ∧
    tC1.get 2 ≠ getSpecDist tC1 2 := by
  refine ⟨rfl, rfl, by decide⟩

end RHMap

namespace RHMap

theorem filterMap_occupiedOf_eq_drainEntries :
    ∀ (l : List (MapEntry K V)), l.filterMap occupiedOf = drainEntries l
  | [] => rfl
  | .vacantEntry :: rest => by
      simp [List.filterMap_cons, occupiedOf, drainEntries,
        filterMap_occupiedOf_eq_drainEntries rest]
  | .occupied e :: rest => by
      simp [List.filterMap_cons, occupiedOf, drainEntries,
        filterMap_occupiedOf_eq_drainEntries rest]

/-- C6, amended: `resize` coincides with its specification-level
description — build a fresh table of capacity `INITIAL_SIZE` when the
current capacity is 0, else twice the current capacity, with the cloned
provider, and re-place every occupied entry of the old array in index
order, reusing the stored digest without recomputing it and KEEPING each
transferred entry's stored `psl` unchanged (the claimed reset of `psl` to
0 does not happen; see the counterexample). -/
theorem C6_resize_keeps_psl [DecidableEq K] :
    ∀ (fuel : Nat) (m : FxHashMap K V),
      m.resize fuel = resizeSpecKept fuel m := by
  intro fuel m
  rw [FxHashMap.resize, resizeSpecKept, filterMap_occupiedOf_eq_drainEntries]

/-- C6, counterexample: on the reachable table `t6` (key 0 at its home
slot 1 with psl 0, key 1 displaced to slot 2 with psl 1, capacity 4),
`resize` transfers key 1 with its stale stored psl 1, which displaces key
0 from the new home slot 1 — whereas resizing with the psl reset to 0, as
the claim states, would keep key 0 at slot 1 and place key 1 at slot 2.
The two resulting backing arrays differ, so `resize` does not reset the
transferred psl. -/
theorem C6_psl_reset_cex :
    runInserts 100 (FxHashMap.new hC6) [(0, 0), (1, 1)] = .ok t6 ∧
    (FxHashMap.resize 100 t6).map FxHashMap.inner =
      .ok [.vacantEntry, .occupied ⟨1, 1, 9, 1⟩, .occupied ⟨0, 0, 1, 1⟩,
        .vacantEntry, .vacantEntry, .vacantEntry, .vacantEntry,
        .vacantEntry] ∧
    (resizeSpecReset 100 t6).map FxHashMap.inner =
      .ok [.vacantEntry, .occupied ⟨0, 0, 1, 0⟩, .occupied ⟨1, 1, 9, 1⟩,
        .vacantEntry, .vacantEntry, .vacantEntry, .vacantEntry,
        .vacantEntry] ∧
    (FxHashMap.resize 100 t6).map FxHashMap.inner ≠
      (resizeSpecReset 100 t6).map FxHashMap.inner := by
  refine ⟨rfl, rfl, rfl, ?_⟩
  intro hcontra
  have h3 : (Except.ok [MapEntry.vacantEntry, .occupied ⟨1, 1, 9, 1⟩,
      .occupied ⟨0, 0, 1, 1⟩, .vacantEntry, .vacantEntry, .vacantEntry,
      .vacantEntry, .vacantEntry] : Res (List (MapEntry Nat Nat))) =
      .ok [MapEntry.vacantEntry, .occupied ⟨0, 0, 1, 0⟩,
      .occupied ⟨1, 1, 9, 1⟩, .vacantEntry, .vacantEntry, .vacantEntry,
      .vacantEntry, .vacantEntry] := hcontra
  injection h3 with h4
  exact absurd h4 (by decide)

end RHMap

namespace RHMap

/-! ### Small-step lemmas for the diverging displacement chain (C10) -/

theorem insertLoop_skip [DecidableEq K] {inner : List (MapEntry K V)}
    {oc e : Entry K V} {i : Nat}
    (hget : inner[i]? = some (.occupied oc))
    (hk : ¬ oc.key = e.key) (hp : ¬ e.psl > oc.psl)
    (hne : ¬ i + 1 = inner.length) :
    insertLoop inner e i =
      insertLoop inner { e with psl := e.psl + 1 } (i + 1) := by
  have hi : i < inner.length := by
    by_contra hge
    rw [List.getElem?_eq_none (by omega)] at hget
    exact Option.noConfusion hget
  have hoc : inner[i] = .occupied oc := by
    rw [List.getElem?_eq_getElem hi] at hget
    exact Option.some.inj hget
  simp only [insertLoop]
  rw [List.drop_eq_getElem_cons hi, hoc]
  rcases hdrop : inner.drop (i + 1) with _ | ⟨s, r⟩
  · rw [List.drop_eq_nil_iff] at hdrop
    omega
  · simp [insertGo, hk, hp]

theorem insertLoop_swapped [DecidableEq K] {inner : List (MapEntry K V)}
    {oc e : Entry K V} {i : Nat}
    (hget : inner[i]? = some (.occupied oc))
    (hk : ¬ oc.key = e.key) (hp : e.psl > oc.psl) :
    insertLoop inner e i = .swapped (inner.set i (.occupied e)) oc := by
  have hi : i < inner.length := by
    by_contra hge
    rw [List.getElem?_eq_none (by omega)] at hget
    exact Option.noConfusion hget
  have hoc : inner[i] = .occupied oc := by
    rw [List.getElem?_eq_getElem hi] at hget
    exact Option.some.inj hget
  simp only [insertLoop]
  rw [List.drop_eq_getElem_cons hi, hoc]
  simp [insertGo, hk, hp]

theorem insert_entry_swap_err [DecidableEq K] {m : FxHashMap K V}
    {e oc rich : Entry K V} {inner2 : List (MapEntry K V)} {fuel : Nat}
    {err : RunErr}
    (hlen : ¬ m.inner.length = 0)
    (hslot : m.inner[e.hash % m.inner.length]? = some (.occupied oc))
    (hloop : insertLoop m.inner e (e.hash % m.inner.length) =
      .swapped inner2 rich)
    (hrec : FxHashMap.insert_entry fuel
      ⟨inner2, m.hasher_builder, m.num_items⟩ rich = .error err) :
    FxHashMap.insert_entry (fuel + 1) m e = .error err := by
  simp only [FxHashMap.insert_entry, if_neg hlen, hslot, hloop, hrec]

end RHMap

namespace RHMap

/-- The displacement chain of the diverging insert is a pumping cycle:
from each of its 14 shapes (any psl offset b, any item count n, any
provider hb), one more unit of fuel only reaches the next shape, the
last looping back to the first with offset b + 3 — so insert_entry
runs out of any amount of fuel. -/
theorem pump : ∀ (fuel b n : Nat) (hb : Nat → Nat),
    (FxHashMap.insert_entry fuel ⟨pInner (oE 12 2 (b + 3)) (oE 1 3 (b + 3)) (oE 9 2 (b + 4)) (oE 10 2 (b + 5)) (oE 11 4 (b + 5)), hb, n⟩
        ⟨2, 2, 2, b + 4⟩ = Except.error RunErr.fuel) ∧
    (FxHashMap.insert_entry fuel ⟨pInner (oE 2 2 (b + 4)) (oE 1 3 (b + 3)) (oE 9 2 (b + 4)) (oE 10 2 (b + 5)) (oE 11 4 (b + 5)), hb, n⟩
        ⟨12, 12, 2, b + 3⟩ = Except.error RunErr.fuel) ∧
    (FxHashMap.insert_entry fuel ⟨pInner (oE 2 2 (b + 4)) (oE 12 2 (b + 4)) (oE 9 2 (b + 4)) (oE 10 2 (b + 5)) (oE 11 4 (b + 5)), hb, n⟩
        ⟨1, 1, 3, b + 3⟩ = Except.error RunErr.fuel) ∧
    (FxHashMap.insert_entry fuel ⟨pInner (oE 2 2 (b + 4)) (oE 12 2 (b + 4)) (oE 9 2 (b + 4)) (oE 10 2 (b + 5)) (oE 1 3 (b + 6)), hb, n⟩
        ⟨11, 11, 4, b + 5⟩ = Except.error RunErr.fuel) ∧
    (FxHashMap.insert_entry fuel ⟨pInner (oE 2 2 (b + 4)) (oE 12 2 (b + 4)) (oE 11 4 (b + 5)) (oE 10 2 (b + 5)) (oE 1 3 (b + 6)), hb, n⟩
        ⟨9, 9, 2, b + 4⟩ = Except.error RunErr.fuel) ∧
    (FxHashMap.insert_entry fuel ⟨pInner (oE 2 2 (b + 4)) (oE 9 2 (b + 5)) (oE 11 4 (b + 5)) (oE 10 2 (b + 5)) (oE 1 3 (b + 6)), hb, n⟩
        ⟨12, 12, 2, b + 4⟩ = Except.error RunErr.fuel) ∧
    (FxHashMap.insert_entry fuel ⟨pInner (oE 2 2 (b + 4)) (oE 9 2 (b + 5)) (oE 12 2 (b + 6)) (oE 10 2 (b + 5)) (oE 1 3 (b + 6)), hb, n⟩
        ⟨11, 11, 4, b + 5⟩ = Except.error RunErr.fuel) ∧
    (FxHashMap.insert_entry fuel ⟨pInner (oE 2 2 (b + 4)) (oE 9 2 (b + 5)) (oE 12 2 (b + 6)) (oE 11 4 (b + 6)) (oE 1 3 (b + 6)), hb, n⟩
        ⟨10, 10, 2, b + 5⟩ = Except.error RunErr.fuel) ∧
    (FxHashMap.insert_entry fuel ⟨pInner (oE 10 2 (b + 5)) (oE 9 2 (b + 5)) (oE 12 2 (b + 6)) (oE 11 4 (b + 6)) (oE 1 3 (b + 6)), hb, n⟩
        ⟨2, 2, 2, b + 4⟩ = Except.error RunErr.fuel) ∧
    (FxHashMap.insert_entry fuel ⟨pInner (oE 10 2 (b + 5)) (oE 9 2 (b + 5)) (oE 12 2 (b + 6)) (oE 2 2 (b + 7)) (oE 1 3 (b + 6)), hb, n⟩
        ⟨11, 11, 4, b + 6⟩ = Except.error RunErr.fuel) ∧
    (FxHashMap.insert_entry fuel ⟨pInner (oE 10 2 (b + 5)) (oE 9 2 (b + 5)) (oE 12 2 (b + 6)) (oE 2 2 (b + 7)) (oE 11 4 (b + 8)), hb, n⟩
        ⟨1, 1, 3, b + 6⟩ = Except.error RunErr.fuel) ∧
    (FxHashMap.insert_entry fuel ⟨pInner (oE 10 2 (b + 5)) (oE 1 3 (b + 6)) (oE 12 2 (b + 6)) (oE 2 2 (b + 7)) (oE 11 4 (b + 8)), hb, n⟩
        ⟨9, 9, 2, b + 5⟩ = Except.error RunErr.fuel) ∧
    (FxHashMap.insert_entry fuel ⟨pInner (oE 10 2 (b + 5)) (oE 1 3 (b + 6)) (oE 9 2 (b + 7)) (oE 2 2 (b + 7)) (oE 11 4 (b + 8)), hb, n⟩
        ⟨12, 12, 2, b + 6⟩ = Except.error RunErr.fuel) ∧
    (FxHashMap.insert_entry fuel ⟨pInner (oE 12 2 (b + 6)) (oE 1 3 (b + 6)) (oE 9 2 (b + 7)) (oE 2 2 (b + 7)) (oE 11 4 (b + 8)), hb, n⟩
        ⟨10, 10, 2, b + 5⟩ = Except.error RunErr.fuel)
  | 0, b, n, hb => ⟨rfl, rfl, rfl, rfl, rfl, rfl, rfl, rfl, rfl, rfl, rfl, rfl, rfl, rfl⟩
  | fuel + 1, b, n, hb => by
    refine ⟨?_, ?_, ?_, ?_, ?_, ?_, ?_, ?_, ?_, ?_, ?_, ?_, ?_, ?_⟩
    · have sw : insertLoop (pInner (oE 12 2 (b + 3)) (oE 1 3 (b + 3)) (oE 9 2 (b + 4)) (oE 10 2 (b + 5)) (oE 11 4 (b + 5))) ⟨2, 2, 2, b + 4⟩ 2 =
          LoopOut.swapped (pInner (oE 2 2 (b + 4)) (oE 1 3 (b + 3)) (oE 9 2 (b + 4)) (oE 10 2 (b + 5)) (oE 11 4 (b + 5)))
            ⟨12, 12, 2, b + 3⟩ :=
        insertLoop_swapped rfl (show ¬ (12 : Nat) = 2 by decide)
          (show b + 4 > b + 3 by omega)
      exact insert_entry_swap_err (show ¬ (20 : Nat) = 0 by decide) rfl
        (sw) ((pump fuel b n hb).2.1)
    · have s1 : insertLoop (pInner (oE 2 2 (b + 4)) (oE 1 3 (b + 3)) (oE 9 2 (b + 4)) (oE 10 2 (b + 5)) (oE 11 4 (b + 5))) ⟨12, 12, 2, b + 3⟩ 2 =
          insertLoop (pInner (oE 2 2 (b + 4)) (oE 1 3 (b + 3)) (oE 9 2 (b + 4)) (oE 10 2 (b + 5)) (oE 11 4 (b + 5))) ⟨12, 12, 2, b + 4⟩ 3 :=
        insertLoop_skip rfl (show ¬ (2 : Nat) = 12 by decide)
          (show ¬ (b + 3 > b + 4) by omega) (show ¬ (3 : Nat) = 20 by decide)
      have sw : insertLoop (pInner (oE 2 2 (b + 4)) (oE 1 3 (b + 3)) (oE 9 2 (b + 4)) (oE 10 2 (b + 5)) (oE 11 4 (b + 5))) ⟨12, 12, 2, b + 4⟩ 3 =
          LoopOut.swapped (pInner (oE 2 2 (b + 4)) (oE 12 2 (b + 4)) (oE 9 2 (b + 4)) (oE 10 2 (b + 5)) (oE 11 4 (b + 5)))
            ⟨1, 1, 3, b + 3⟩ :=
        insertLoop_swapped rfl (show ¬ (1 : Nat) = 12 by decide)
          (show b + 4 > b + 3 by omega)
      exact insert_entry_swap_err (show ¬ (20 : Nat) = 0 by decide) rfl
        (s1.trans (sw)) ((pump fuel b n hb).2.2.1)
    · have s1 : insertLoop (pInner (oE 2 2 (b + 4)) (oE 12 2 (b + 4)) (oE 9 2 (b + 4)) (oE 10 2 (b + 5)) (oE 11 4 (b + 5))) ⟨1, 1, 3, b + 3⟩ 3 =
          insertLoop (pInner (oE 2 2 (b + 4)) (oE 12 2 (b + 4)) (oE 9 2 (b + 4)) (oE 10 2 (b + 5)) (oE 11 4 (b + 5))) ⟨1, 1, 3, b + 4⟩ 4 :=
        insertLoop_skip rfl (show ¬ (12 : Nat) = 1 by decide)
          (show ¬ (b + 3 > b + 4) by omega) (show ¬ (4 : Nat) = 20 by decide)
      have s2 : insertLoop (pInner (oE 2 2 (b + 4)) (oE 12 2 (b + 4)) (oE 9 2 (b + 4)) (oE 10 2 (b + 5)) (oE 11 4 (b + 5))) ⟨1, 1, 3, b + 4⟩ 4 =
          insertLoop (pInner (oE 2 2 (b + 4)) (oE 12 2 (b + 4)) (oE 9 2 (b + 4)) (oE 10 2 (b + 5)) (oE 11 4 (b + 5))) ⟨1, 1, 3, b + 5⟩ 5 :=
        insertLoop_skip rfl (show ¬ (9 : Nat) = 1 by decide)
          (show ¬ (b + 4 > b + 4) by omega) (show ¬ (5 : Nat) = 20 by decide)
      have s3 : insertLoop (pInner (oE 2 2 (b + 4)) (oE 12 2 (b + 4)) (oE 9 2 (b + 4)) (oE 10 2 (b + 5)) (oE 11 4 (b + 5))) ⟨1, 1, 3, b + 5⟩ 5 =
          insertLoop (pInner (oE 2 2 (b + 4)) (oE 12 2 (b + 4)) (oE 9 2 (b + 4)) (oE 10 2 (b + 5)) (oE 11 4 (b + 5))) ⟨1, 1, 3, b + 6⟩ 6 :=
        insertLoop_skip rfl (show ¬ (10 : Nat) = 1 by decide)
          (show ¬ (b + 5 > b + 5) by omega) (show ¬ (6 : Nat) = 20 by decide)
      have sw : insertLoop (pInner (oE 2 2 (b + 4)) (oE 12 2 (b + 4)) (oE 9 2 (b + 4)) (oE 10 2 (b + 5)) (oE 11 4 (b + 5))) ⟨1, 1, 3, b + 6⟩ 6 =
          LoopOut.swapped (pInner (oE 2 2 (b + 4)) (oE 12 2 (b + 4)) (oE 9 2 (b + 4)) (oE 10 2 (b + 5)) (oE 1 3 (b + 6)))
            ⟨11, 11, 4, b + 5⟩ :=
        insertLoop_swapped rfl (show ¬ (11 : Nat) = 1 by decide)
          (show b + 6 > b + 5 by omega)
      exact insert_entry_swap_err (show ¬ (20 : Nat) = 0 by decide) rfl
        (s1.trans (s2.trans (s3.trans (sw)))) ((pump fuel b n hb).2.2.2.1)
    · have sw : insertLoop (pInner (oE 2 2 (b + 4)) (oE 12 2 (b + 4)) (oE 9 2 (b + 4)) (oE 10 2 (b + 5)) (oE 1 3 (b + 6))) ⟨11, 11, 4, b + 5⟩ 4 =
          LoopOut.swapped (pInner (oE 2 2 (b + 4)) (oE 12 2 (b + 4)) (oE 11 4 (b + 5)) (oE 10 2 (b + 5)) (oE 1 3 (b + 6)))
            ⟨9, 9, 2, b + 4⟩ :=
        insertLoop_swapped rfl (show ¬ (9 : Nat) = 11 by decide)
          (show b + 5 > b + 4 by omega)
      exact insert_entry_swap_err (show ¬ (20 : Nat) = 0 by decide) rfl
        (sw) ((pump fuel b n hb).2.2.2.2.1)
    · have s1 : insertLoop (pInner (oE 2 2 (b + 4)) (oE 12 2 (b + 4)) (oE 11 4 (b + 5)) (oE 10 2 (b + 5)) (oE 1 3 (b + 6))) ⟨9, 9, 2, b + 4⟩ 2 =
          insertLoop (pInner (oE 2 2 (b + 4)) (oE 12 2 (b + 4)) (oE 11 4 (b + 5)) (oE 10 2 (b + 5)) (oE 1 3 (b + 6))) ⟨9, 9, 2, b + 5⟩ 3 :=
        insertLoop_skip rfl (show ¬ (2 : Nat) = 9 by decide)
          (show ¬ (b + 4 > b + 4) by omega) (show ¬ (3 : Nat) = 20 by decide)
      have sw : insertLoop (pInner (oE 2 2 (b + 4)) (oE 12 2 (b + 4)) (oE 11 4 (b + 5)) (oE 10 2 (b + 5)) (oE 1 3 (b + 6))) ⟨9, 9, 2, b + 5⟩ 3 =
          LoopOut.swapped (pInner (oE 2 2 (b + 4)) (oE 9 2 (b + 5)) (oE 11 4 (b + 5)) (oE 10 2 (b + 5)) (oE 1 3 (b + 6)))
            ⟨12, 12, 2, b + 4⟩ :=
        insertLoop_swapped rfl (show ¬ (12 : Nat) = 9 by decide)
          (show b + 5 > b + 4 by omega)
      exact insert_entry_swap_err (show ¬ (20 : Nat) = 0 by decide) rfl
        (s1.trans (sw)) ((pump fuel b n hb).2.2.2.2.2.1)
    · have s1 : insertLoop (pInner (oE 2 2 (b + 4)) (oE 9 2 (b + 5)) (oE 11 4 (b + 5)) (oE 10 2 (b + 5)) (oE 1 3 (b + 6))) ⟨12, 12, 2, b + 4⟩ 2 =
          insertLoop (pInner (oE 2 2 (b + 4)) (oE 9 2 (b + 5)) (oE 11 4 (b + 5)) (oE 10 2 (b + 5)) (oE 1 3 (b + 6))) ⟨12, 12, 2, b + 5⟩ 3 :=
        insertLoop_skip rfl (show ¬ (2 : Nat) = 12 by decide)
          (show ¬ (b + 4 > b + 4) by omega) (show ¬ (3 : Nat) = 20 by decide)
      have s2 : insertLoop (pInner (oE 2 2 (b + 4)) (oE 9 2 (b + 5)) (oE 11 4 (b + 5)) (oE 10 2 (b + 5)) (oE 1 3 (b + 6))) ⟨12, 12, 2, b + 5⟩ 3 =
          insertLoop (pInner (oE 2 2 (b + 4)) (oE 9 2 (b + 5)) (oE 11 4 (b + 5)) (oE 10 2 (b + 5)) (oE 1 3 (b + 6))) ⟨12, 12, 2, b + 6⟩ 4 :=
        insertLoop_skip rfl (show ¬ (9 : Nat) = 12 by decide)
          (show ¬ (b + 5 > b + 5) by omega) (show ¬ (4 : Nat) = 20 by decide)
      have sw : insertLoop (pInner (oE 2 2 (b + 4)) (oE 9 2 (b + 5)) (oE 11 4 (b + 5)) (oE 10 2 (b + 5)) (oE 1 3 (b + 6))) ⟨12, 12, 2, b + 6⟩ 4 =
          LoopOut.swapped (pInner (oE 2 2 (b + 4)) (oE 9 2 (b + 5)) (oE 12 2 (b + 6)) (oE 10 2 (b + 5)) (oE 1 3 (b + 6)))
            ⟨11, 11, 4, b + 5⟩ :=
        insertLoop_swapped rfl (show ¬ (11 : Nat) = 12 by decide)
          (show b + 6 > b + 5 by omega)
      exact insert_entry_swap_err (show ¬ (20 : Nat) = 0 by decide) rfl
        (s1.trans (s2.trans (sw))) ((pump fuel b n hb).2.2.2.2.2.2.1)
    · have s1 : insertLoop (pInner (oE 2 2 (b + 4)) (oE 9 2 (b + 5)) (oE 12 2 (b + 6)) (oE 10 2 (b + 5)) (oE 1 3 (b + 6))) ⟨11, 11, 4, b + 5⟩ 4 =
          insertLoop (pInner (oE 2 2 (b + 4)) (oE 9 2 (b + 5)) (oE 12 2 (b + 6)) (oE 10 2 (b + 5)) (oE 1 3 (b + 6))) ⟨11, 11, 4, b + 6⟩ 5 :=
        insertLoop_skip rfl (show ¬ (12 : Nat) = 11 by decide)
          (show ¬ (b + 5 > b + 6) by omega) (show ¬ (5 : Nat) = 20 by decide)
      have sw : insertLoop (pInner (oE 2 2 (b + 4)) (oE 9 2 (b + 5)) (oE 12 2 (b + 6)) (oE 10 2 (b + 5)) (oE 1 3 (b + 6))) ⟨11, 11, 4, b + 6⟩ 5 =
          LoopOut.swapped (pInner (oE 2 2 (b + 4)) (oE 9 2 (b + 5)) (oE 12 2 (b + 6)) (oE 11 4 (b + 6)) (oE 1 3 (b + 6)))
            ⟨10, 10, 2, b + 5⟩ :=
        insertLoop_swapped rfl (show ¬ (10 : Nat) = 11 by decide)
          (show b + 6 > b + 5 by omega)
      exact insert_entry_swap_err (show ¬ (20 : Nat) = 0 by decide) rfl
        (s1.trans (sw)) ((pump fuel b n hb).2.2.2.2.2.2.2.1)
    · have sw : insertLoop (pInner (oE 2 2 (b + 4)) (oE 9 2 (b + 5)) (oE 12 2 (b + 6)) (oE 11 4 (b + 6)) (oE 1 3 (b + 6))) ⟨10, 10, 2, b + 5⟩ 2 =
          LoopOut.swapped (pInner (oE 10 2 (b + 5)) (oE 9 2 (b + 5)) (oE 12 2 (b + 6)) (oE 11 4 (b + 6)) (oE 1 3 (b + 6)))
            ⟨2, 2, 2, b + 4⟩ :=
        insertLoop_swapped rfl (show ¬ (2 : Nat) = 10 by decide)
          (show b + 5 > b + 4 by omega)
      exact insert_entry_swap_err (show ¬ (20 : Nat) = 0 by decide) rfl
        (sw) ((pump fuel b n hb).2.2.2.2.2.2.2.2.1)
    · have s1 : insertLoop (pInner (oE 10 2 (b + 5)) (oE 9 2 (b + 5)) (oE 12 2 (b + 6)) (oE 11 4 (b + 6)) (oE 1 3 (b + 6))) ⟨2, 2, 2, b + 4⟩ 2 =
          insertLoop (pInner (oE 10 2 (b + 5)) (oE 9 2 (b + 5)) (oE 12 2 (b + 6)) (oE 11 4 (b + 6)) (oE 1 3 (b + 6))) ⟨2, 2, 2, b + 5⟩ 3 :=
        insertLoop_skip rfl (show ¬ (10 : Nat) = 2 by decide)
          (show ¬ (b + 4 > b + 5) by omega) (show ¬ (3 : Nat) = 20 by decide)
      have s2 : insertLoop (pInner (oE 10 2 (b + 5)) (oE 9 2 (b + 5)) (oE 12 2 (b + 6)) (oE 11 4 (b + 6)) (oE 1 3 (b + 6))) ⟨2, 2, 2, b + 5⟩ 3 =
          insertLoop (pInner (oE 10 2 (b + 5)) (oE 9 2 (b + 5)) (oE 12 2 (b + 6)) (oE 11 4 (b + 6)) (oE 1 3 (b + 6))) ⟨2, 2, 2, b + 6⟩ 4 :=
        insertLoop_skip rfl (show ¬ (9 : Nat) = 2 by decide)
          (show ¬ (b + 5 > b + 5) by omega) (show ¬ (4 : Nat) = 20 by decide)
      have s3 : insertLoop (pInner (oE 10 2 (b + 5)) (oE 9 2 (b + 5)) (oE 12 2 (b + 6)) (oE 11 4 (b + 6)) (oE 1 3 (b + 6))) ⟨2, 2, 2, b + 6⟩ 4 =
          insertLoop (pInner (oE 10 2 (b + 5)) (oE 9 2 (b + 5)) (oE 12 2 (b + 6)) (oE 11 4 (b + 6)) (oE 1 3 (b + 6))) ⟨2, 2, 2, b + 7⟩ 5 :=
        insertLoop_skip rfl (show ¬ (12 : Nat) = 2 by decide)
          (show ¬ (b + 6 > b + 6) by omega) (show ¬ (5 : Nat) = 20 by decide)
      have sw : insertLoop (pInner (oE 10 2 (b + 5)) (oE 9 2 (b + 5)) (oE 12 2 (b + 6)) (oE 11 4 (b + 6)) (oE 1 3 (b + 6))) ⟨2, 2, 2, b + 7⟩ 5 =
          LoopOut.swapped (pInner (oE 10 2 (b + 5)) (oE 9 2 (b + 5)) (oE 12 2 (b + 6)) (oE 2 2 (b + 7)) (oE 1 3 (b + 6)))
            ⟨11, 11, 4, b + 6⟩ :=
        insertLoop_swapped rfl (show ¬ (11 : Nat) = 2 by decide)
          (show b + 7 > b + 6 by omega)
      exact insert_entry_swap_err (show ¬ (20 : Nat) = 0 by decide) rfl
        (s1.trans (s2.trans (s3.trans (sw)))) ((pump fuel b n hb).2.2.2.2.2.2.2.2.2.1)
    · have s1 : insertLoop (pInner (oE 10 2 (b + 5)) (oE 9 2 (b + 5)) (oE 12 2 (b + 6)) (oE 2 2 (b + 7)) (oE 1 3 (b + 6))) ⟨11, 11, 4, b + 6⟩ 4 =
          insertLoop (pInner (oE 10 2 (b + 5)) (oE 9 2 (b + 5)) (oE 12 2 (b + 6)) (oE 2 2 (b + 7)) (oE 1 3 (b + 6))) ⟨11, 11, 4, b + 7⟩ 5 :=
        insertLoop_skip rfl (show ¬ (12 : Nat) = 11 by decide)
          (show ¬ (b + 6 > b + 6) by omega) (show ¬ (5 : Nat) = 20 by decide)
      have s2 : insertLoop (pInner (oE 10 2 (b + 5)) (oE 9 2 (b + 5)) (oE 12 2 (b + 6)) (oE 2 2 (b + 7)) (oE 1 3 (b + 6))) ⟨11, 11, 4, b + 7⟩ 5 =
          insertLoop (pInner (oE 10 2 (b + 5)) (oE 9 2 (b + 5)) (oE 12 2 (b + 6)) (oE 2 2 (b + 7)) (oE 1 3 (b + 6))) ⟨11, 11, 4, b + 8⟩ 6 :=
        insertLoop_skip rfl (show ¬ (2 : Nat) = 11 by decide)
          (show ¬ (b + 7 > b + 7) by omega) (show ¬ (6 : Nat) = 20 by decide)
      have sw : insertLoop (pInner (oE 10 2 (b + 5)) (oE 9 2 (b + 5)) (oE 12 2 (b + 6)) (oE 2 2 (b + 7)) (oE 1 3 (b + 6))) ⟨11, 11, 4, b + 8⟩ 6 =
          LoopOut.swapped (pInner (oE 10 2 (b + 5)) (oE 9 2 (b + 5)) (oE 12 2 (b + 6)) (oE 2 2 (b + 7)) (oE 11 4 (b + 8)))
            ⟨1, 1, 3, b + 6⟩ :=
        insertLoop_swapped rfl (show ¬ (1 : Nat) = 11 by decide)
          (show b + 8 > b + 6 by omega)
      exact insert_entry_swap_err (show ¬ (20 : Nat) = 0 by decide) rfl
        (s1.trans (s2.trans (sw))) ((pump fuel b n hb).2.2.2.2.2.2.2.2.2.2.1)
    · have sw : insertLoop (pInner (oE 10 2 (b + 5)) (oE 9 2 (b + 5)) (oE 12 2 (b + 6)) (oE 2 2 (b + 7)) (oE 11 4 (b + 8))) ⟨1, 1, 3, b + 6⟩ 3 =
          LoopOut.swapped (pInner (oE 10 2 (b + 5)) (oE 1 3 (b + 6)) (oE 12 2 (b + 6)) (oE 2 2 (b + 7)) (oE 11 4 (b + 8)))
            ⟨9, 9, 2, b + 5⟩ :=
        insertLoop_swapped rfl (show ¬ (9 : Nat) = 1 by decide)
          (show b + 6 > b + 5 by omega)
      exact insert_entry_swap_err (show ¬ (20 : Nat) = 0 by decide) rfl
        (sw) ((pump fuel b n hb).2.2.2.2.2.2.2.2.2.2.2.1)
    · have s1 : insertLoop (pInner (oE 10 2 (b + 5)) (oE 1 3 (b + 6)) (oE 12 2 (b + 6)) (oE 2 2 (b + 7)) (oE 11 4 (b + 8))) ⟨9, 9, 2, b + 5⟩ 2 =
          insertLoop (pInner (oE 10 2 (b + 5)) (oE 1 3 (b + 6)) (oE 12 2 (b + 6)) (oE 2 2 (b + 7)) (oE 11 4 (b + 8))) ⟨9, 9, 2, b + 6⟩ 3 :=
        insertLoop_skip rfl (show ¬ (10 : Nat) = 9 by decide)
          (show ¬ (b + 5 > b + 5) by omega) (show ¬ (3 : Nat) = 20 by decide)
      have s2 : insertLoop (pInner (oE 10 2 (b + 5)) (oE 1 3 (b + 6)) (oE 12 2 (b + 6)) (oE 2 2 (b + 7)) (oE 11 4 (b + 8))) ⟨9, 9, 2, b + 6⟩ 3 =
          insertLoop (pInner (oE 10 2 (b + 5)) (oE 1 3 (b + 6)) (oE 12 2 (b + 6)) (oE 2 2 (b + 7)) (oE 11 4 (b + 8))) ⟨9, 9, 2, b + 7⟩ 4 :=
        insertLoop_skip rfl (show ¬ (1 : Nat) = 9 by decide)
          (show ¬ (b + 6 > b + 6) by omega) (show ¬ (4 : Nat) = 20 by decide)
      have sw : insertLoop (pInner (oE 10 2 (b + 5)) (oE 1 3 (b + 6)) (oE 12 2 (b + 6)) (oE 2 2 (b + 7)) (oE 11 4 (b + 8))) ⟨9, 9, 2, b + 7⟩ 4 =
          LoopOut.swapped (pInner (oE 10 2 (b + 5)) (oE 1 3 (b + 6)) (oE 9 2 (b + 7)) (oE 2 2 (b + 7)) (oE 11 4 (b + 8)))
            ⟨12, 12, 2, b + 6⟩ :=
        insertLoop_swapped rfl (show ¬ (12 : Nat) = 9 by decide)
          (show b + 7 > b + 6 by omega)
      exact insert_entry_swap_err (show ¬ (20 : Nat) = 0 by decide) rfl
        (s1.trans (s2.trans (sw))) ((pump fuel b n hb).2.2.2.2.2.2.2.2.2.2.2.2.1)
    · have sw : insertLoop (pInner (oE 10 2 (b + 5)) (oE 1 3 (b + 6)) (oE 9 2 (b + 7)) (oE 2 2 (b + 7)) (oE 11 4 (b + 8))) ⟨12, 12, 2, b + 6⟩ 2 =
          LoopOut.swapped (pInner (oE 12 2 (b + 6)) (oE 1 3 (b + 6)) (oE 9 2 (b + 7)) (oE 2 2 (b + 7)) (oE 11 4 (b + 8)))
            ⟨10, 10, 2, b + 5⟩ :=
        insertLoop_swapped rfl (show ¬ (10 : Nat) = 12 by decide)
          (show b + 6 > b + 5 by omega)
      exact insert_entry_swap_err (show ¬ (20 : Nat) = 0 by decide) rfl
        (sw) ((pump fuel b n hb).2.2.2.2.2.2.2.2.2.2.2.2.2)
    · have s1 : insertLoop (pInner (oE 12 2 (b + 6)) (oE 1 3 (b + 6)) (oE 9 2 (b + 7)) (oE 2 2 (b + 7)) (oE 11 4 (b + 8))) ⟨10, 10, 2, b + 5⟩ 2 =
          insertLoop (pInner (oE 12 2 (b + 6)) (oE 1 3 (b + 6)) (oE 9 2 (b + 7)) (oE 2 2 (b + 7)) (oE 11 4 (b + 8))) ⟨10, 10, 2, b + 6⟩ 3 :=
        insertLoop_skip rfl (show ¬ (12 : Nat) = 10 by decide)
          (show ¬ (b + 5 > b + 6) by omega) (show ¬ (3 : Nat) = 20 by decide)
      have s2 : insertLoop (pInner (oE 12 2 (b + 6)) (oE 1 3 (b + 6)) (oE 9 2 (b + 7)) (oE 2 2 (b + 7)) (oE 11 4 (b + 8))) ⟨10, 10, 2, b + 6⟩ 3 =
          insertLoop (pInner (oE 12 2 (b + 6)) (oE 1 3 (b + 6)) (oE 9 2 (b + 7)) (oE 2 2 (b + 7)) (oE 11 4 (b + 8))) ⟨10, 10, 2, b + 7⟩ 4 :=
        insertLoop_skip rfl (show ¬ (1 : Nat) = 10 by decide)
          (show ¬ (b + 6 > b + 6) by omega) (show ¬ (4 : Nat) = 20 by decide)
      have s3 : insertLoop (pInner (oE 12 2 (b + 6)) (oE 1 3 (b + 6)) (oE 9 2 (b + 7)) (oE 2 2 (b + 7)) (oE 11 4 (b + 8))) ⟨10, 10, 2, b + 7⟩ 4 =
          insertLoop (pInner (oE 12 2 (b + 6)) (oE 1 3 (b + 6)) (oE 9 2 (b + 7)) (oE 2 2 (b + 7)) (oE 11 4 (b + 8))) ⟨10, 10, 2, b + 8⟩ 5 :=
        insertLoop_skip rfl (show ¬ (9 : Nat) = 10 by decide)
          (show ¬ (b + 7 > b + 7) by omega) (show ¬ (5 : Nat) = 20 by decide)
      have sw : insertLoop (pInner (oE 12 2 (b + 6)) (oE 1 3 (b + 6)) (oE 9 2 (b + 7)) (oE 2 2 (b + 7)) (oE 11 4 (b + 8))) ⟨10, 10, 2, b + 8⟩ 5 =
          LoopOut.swapped (pInner (oE 12 2 (b + 6)) (oE 1 3 (b + 6)) (oE 9 2 (b + 7)) (oE 10 2 (b + 8)) (oE 11 4 (b + 8)))
            ⟨2, 2, 2, b + 7⟩ :=
        insertLoop_swapped rfl (show ¬ (2 : Nat) = 10 by decide)
          (show b + 8 > b + 7 by omega)
      exact insert_entry_swap_err (show ¬ (20 : Nat) = 0 by decide) rfl
        (s1.trans (s2.trans (s3.trans (sw)))) ((pump fuel (b + 3) n hb).1)

end RHMap

namespace RHMap

theorem pumpPre2 : ∀ (fuel : Nat),
    FxHashMap.insert_entry fuel
      ⟨[.vacantEntry, oE 6 1 0, oE 12 2 3, oE 1 3 3, oE 9 2 4, oE 10 2 5,
        oE 2 2 4, oE 0 5 5,
        .vacantEntry, .vacantEntry, .vacantEntry, .vacantEntry,
        .vacantEntry, .vacantEntry, .vacantEntry, .vacantEntry,
        .vacantEntry, .vacantEntry, .vacantEntry, .vacantEntry],
       hSeed, 11⟩ ⟨11, 11, 4, 3⟩ = .error .fuel
  | 0 => rfl
  | fuel + 1 =>
      insert_entry_swap_err (by decide) rfl rfl ((pump fuel 0 11 hSeed).1)

theorem pumpPre1 : ∀ (fuel : Nat),
    FxHashMap.insert_entry fuel
      ⟨[.vacantEntry, oE 6 1 0, oE 12 2 3, oE 1 3 3, oE 9 2 4, oE 10 2 5,
        oE 2 2 4, oE 11 4 3,
        .vacantEntry, .vacantEntry, .vacantEntry, .vacantEntry,
        .vacantEntry, .vacantEntry, .vacantEntry, .vacantEntry,
        .vacantEntry, .vacantEntry, .vacantEntry, .vacantEntry],
       hSeed, 11⟩ ⟨0, 0, 5, 3⟩ = .error .fuel
  | 0 => rfl
  | fuel + 1 =>
      insert_entry_swap_err (by decide) rfl rfl (pumpPre2 fuel)

theorem pumpPre0 : ∀ (fuel : Nat),
    FxHashMap.insert_entry fuel tPre ⟨2, 2, 2, 0⟩ = .error .fuel
  | 0 => rfl
  | fuel + 1 =>
      insert_entry_swap_err (by decide) rfl rfl (pumpPre1 fuel)

/-- C10: `insert_entry` does NOT terminate on every input with a non-empty
backing array.  The eight inserts `preInserts` from the empty table
`new hSeed` succeed (reaching `tPre`, capacity 20, seven occupied slots),
but the ninth insert, of the fresh key 2, enters a displacement cycle:
each displaced entry re-starts from its home with its stale psl, swaps
with another, and the stored psl values pump upward forever (+3 every 14
displacements), so `insert` returns out-of-fuel for EVERY fuel — in the
source this is an infinite displacement recursion (a stack overflow), on
a state reached purely by public `insert` calls. -/
theorem C10_insert_diverges :
    runInserts 100 (FxHashMap.new hSeed) preInserts = .ok tPre ∧
    ∀ fuel : Nat, tPre.insert fuel 2 2 = .error .fuel := by
  refine ⟨rfl, fun fuel => ?_⟩
  show FxHashMap.insert_entry fuel tPre ⟨2, 2, 2, 0⟩ = .error .fuel
  exact pumpPre0 fuel

end RHMap
